import Mathlib

/-!
Shallow embedding of the wlrigctl gateway (Rust) for specification checking.

Embedded components, each translated from the named source file:
* src/flrig.rs   : the canonical rig `Mode` enumeration, its Display /
  FromStr tables, and the `set_mode` write-suppression guard;
* src/cat.rs     : the FT8 band-plan classifier `is_ft8`, the two
  Wavelog-to-FLRig mode translators, and the QSY path parser;
* src/wsjtx.rs   : the big-endian bincode wire decoder `decode_hdr`;
* src/wavelog.rs : the polling-loop change detector and push gating.

Machine floats (`f64`) are embedded as rationals: every frequency value
appearing in the sources (band centres, the two allowances, the 10 MHz split)
is an integer far below 2^53, so every comparison performed by the code is
exact and agree with the rational ones.  Machine integers are embedded as
`Nat` with explicit bounds / two's-complement reinterpretation where the
code casts (`u32 as i32`).
-/

/-- Canonical transceiver mode enumeration, from `enum Mode` in src/flrig.rs. -/
inductive Mode where
  | LSB | USB | AM | AM_N | CW | CW_U | RTTY | RTTY_U | FM | FM_N
  | CW_R | CW_L | RTTY_R | RTTY_L | D_LSB | DATA_L | D_USB | DATA_U
  | DATA_FM | DATA_FMN | PSK
deriving DecidableEq, Repr

/-- Display table for `Mode`, from `impl fmt::Display for Mode` in src/flrig.rs. -/
def Mode.toString : Mode → String
  | .LSB => "LSB"
  | .USB => "USB"
  | .AM => "AM"
  | .AM_N => "AM-N"
  | .CW => "CW"
  | .CW_U => "CW-U"
  | .RTTY => "RTTY"
  | .RTTY_U => "RTTY-U"
  | .FM => "FM"
  | .FM_N => "FM-N"
  | .CW_R => "CW-R"
  | .CW_L => "CW-L"
  | .RTTY_R => "RTTY-R"
  | .RTTY_L => "RTTY-L"
  | .D_LSB => "D-LSB"
  | .DATA_L => "DATA-L"
  | .D_USB => "D-USB"
  | .DATA_U => "DATA-U"
  | .DATA_FM => "DATA-FM"
  | .DATA_FMN => "DATA-FMN"
  | .PSK => "PSK"

/-- Parse table for `Mode`, from `impl FromStr for Mode` in src/flrig.rs
(`Err(())` is rendered as `none`). -/
def Mode.fromStr (s : String) : Option Mode :=
  if s = "LSB" then some .LSB
  else if s = "USB" then some .USB
  else if s = "AM" then some .AM
  else if s = "AM-N" then some .AM_N
  else if s = "CW" then some .CW
  else if s = "CW-U" then some .CW_U
  else if s = "RTTY" then some .RTTY
  else if s = "RTTY-U" then some .RTTY_U
  else if s = "FM" then some .FM
  else if s = "FM-N" then some .FM_N
  else if s = "CW-R" then some .CW_R
  else if s = "CW-L" then some .CW_L
  else if s = "RTTY-R" then some .RTTY_R
  else if s = "RTTY-L" then some .RTTY_L
  else if s = "D-LSB" then some .D_LSB
  else if s = "DATA-L" then some .DATA_L
  else if s = "D-USB" then some .D_USB
  else if s = "DATA-U" then some .DATA_U
  else if s = "DATA-FM" then some .DATA_FM
  else if s = "DATA-FMN" then some .DATA_FMN
  else if s = "PSK" then some .PSK
  else none

/-- Coarse mode enumeration from the Wavelog band map, from `enum WavelogMode`
in src/cat.rs. -/
inductive WavelogMode where
  | Cw | Phone | LSB | USB | Digi | Rtty
deriving DecidableEq, Repr

/-- Parse table for `WavelogMode`, from `impl FromStr for WavelogMode` in
src/cat.rs. -/
def WavelogMode.fromStr (s : String) : Option WavelogMode :=
  if s = "cw" then some .Cw
  else if s = "phone" then some .Phone
  else if s = "lsb" then some .LSB
  else if s = "usb" then some .USB
  else if s = "digi" then some .Digi
  else if s = "rtty" then some .Rtty
  else none

/-- The ten FT8 activity-window centre frequencies (Hz), from the `FT8`
array in `is_ft8` in src/cat.rs (identical copy in src/main.rs). -/
def ft8Centers : List ℚ :=
  [1840000, 3575000, 7074000, 10136000, 14074000,
   18100000, 21074000, 24915000, 28074000, 50313000]

/-- Band-plan classifier from `is_ft8` in src/cat.rs: the for-loop with an
early `return true` is rendered as `List.any`.  `LO_ALLOWANCE = 2000`,
`HI_ALLOWANCE = 3000`. -/
def is_ft8 (freq_hz : ℚ) : Bool :=
  ft8Centers.any fun c => decide (c - 2000 ≤ freq_hz) && decide (freq_hz < c + 3000)

/-- Mode translator from `wavelog_to_flrig_mode` in src/cat.rs (generic
naming table). -/
def wavelog_to_flrig_mode (freq : ℚ) (mode : WavelogMode) : Mode :=
  if is_ft8 freq then
    Mode.D_USB
  else
    match mode with
    | .Cw => Mode.CW
    | .Phone => if freq < 10000000 then Mode.LSB else Mode.USB
    | .LSB => Mode.LSB
    | .USB => Mode.USB
    | .Digi => Mode.RTTY
    | .Rtty => Mode.RTTY

/-- Mode translator from `wavelog_to_yaesu_flrig_mode` in src/cat.rs
(vendor-qualified naming table). -/
def wavelog_to_yaesu_flrig_mode (freq : ℚ) (mode : WavelogMode) : Mode :=
  if is_ft8 freq then
    Mode.DATA_U
  else
    match mode with
    | .Cw => Mode.CW_U
    | .Phone => if freq < 10000000 then Mode.LSB else Mode.USB
    | .LSB => Mode.LSB
    | .USB => Mode.USB
    | .Digi => Mode.RTTY_U
    | .Rtty => Mode.RTTY_U

/-- Splitting a character list on the separator `'/'`, with the semantics of
Rust's `str::split('/')` as used in `parse_qsy_path` in src/cat.rs: empty
segments are kept, and the result always has one more segment than there
are separators (so the empty input yields one empty segment). -/
def splitSlash : List Char → List (List Char)
  | [] => [[]]
  | c :: rest =>
    if c = '/' then [] :: splitSlash rest
    else
      match splitSlash rest with
      | [] => [[c]]
      | h :: t => (c :: h) :: t

/-- Decimal value of a digit character list (most significant first). -/
def digitsVal (cs : List Char) : Nat :=
  cs.foldl (fun a c => a * 10 + (c.toNat - '0'.toNat)) 0

/-- Rust's `str::parse::<u32>()` as invoked on the first path segment in
`parse_qsy_path` in src/cat.rs: an optional leading `'+'` (a leading `'-'`
is an invalid digit for an unsigned type), then one or more ASCII decimal
digits, and the value must fit in 32 bits; everything else is an error,
rendered as `none`. -/
def parseU32 (cs : List Char) : Option Nat :=
  let ds := match cs with
    | '+' :: rest => rest
    | _ => cs
  if ds ≠ [] ∧ ds.all Char.isDigit then
    if digitsVal ds < 4294967296 then some (digitsVal ds) else none
  else none

/-- Typed QSY request, from `struct Qsy` in src/cat.rs (the parsed `u32`
frequency is stored as an `f64`, embedded here as a rational). -/
structure Qsy where
  freq : ℚ
  mode : WavelogMode
deriving DecidableEq, Repr

/-- QSY path parser from `parse_qsy_path` in src/cat.rs.  The error side
carries the body string passed to `http_err_str` with `StatusCode::BAD_REQUEST`.
Rust's `trim_start_matches('/')` removes every leading slash, rendered as
`List.dropWhile`. -/
def parse_qsy_path (path : String) : Except String Qsy :=
  let parts := splitSlash (path.data.dropWhile fun c => c = '/')
  match parts with
  | [a, b] =>
    match parseU32 a with
    | none => .error "Frequency must be a positive integer"
    | some freq =>
      match WavelogMode.fromStr (String.mk b) with
      | none => .error "Invalid mode"
      | some mode => .ok ⟨(freq : ℚ), mode⟩
  | _ => .error "Expected /<freq>/<mode>"

/-- A command issued to the FLRig daemon by `set_mode` in src/flrig.rs:
either an XML-RPC `rig.set_mode` call (carrying the mode's display string,
since the code sends `mode.to_string()`), or a `rig.set_bw` call issued by
`set_narrow` (carrying the `i32` bandwidth argument). -/
inductive RigCmd where
  | setMode (s : String)
  | setBw (bw : ℤ)
deriving DecidableEq, Repr

/-- True exactly on `rig.set_mode` commands. -/
def RigCmd.isSetMode : RigCmd → Bool
  | .setMode _ => true
  | .setBw _ => false

/-- Two's-complement reinterpretation of a `u32` value as an `i32`,
from the cast `cwbandwidth as i32` in `set_mode` in src/flrig.rs. -/
def i32ofU32 (n : Nat) : ℤ :=
  if n < 2147483648 then (n : ℤ) else (n : ℤ) - 4294967296

/-- Error payload of `FlrigError::UnknownMode`, from `struct UnknownModeError`
in src/flrig.rs. -/
structure UnknownModeError where
  msg : String
deriving DecidableEq, Repr

/-- The errors `set_mode` itself can raise once the current-mode string is in
hand, from `enum FlrigError` in src/flrig.rs (the transport-level
`DxrClient` variant belongs to the abstracted XML-RPC client). -/
inductive FlrigError where
  | unknownMode (e : UnknownModeError)
deriving DecidableEq, Repr

/-- The mode-write guard from `FLRig::set_mode` in src/flrig.rs, with the
rig interaction made explicit: `existing_mode_str` is the string returned
by the preceding `rig.get_mode` call, and the result lists the commands
issued to the rig, in order.  The unknown-mode error message is the literal
string the code builds with `"mode \x7bexisting_mode_str\x7d is unknown".to_string()`
(note: no `format!`, so the placeholder is not interpolated). -/
def set_mode (cwbandwidth : Option Nat) (existing_mode_str : String) (mode : Mode) :
    Except FlrigError (List RigCmd) :=
  match Mode.fromStr existing_mode_str with
  | none => .error (.unknownMode ⟨"mode \x7bexisting_mode_str\x7d is unknown"⟩)
  | some existing_mode =>
    if mode = existing_mode then
      .ok []
    else
      match cwbandwidth with
      | some bw =>
        if mode = Mode.CW then
          .ok [RigCmd.setMode (Mode.toString mode), RigCmd.setBw (i32ofU32 bw)]
        else
          .ok [RigCmd.setMode (Mode.toString mode)]
      | none => .ok [RigCmd.setMode (Mode.toString mode)]

/-- Take exactly `n` bytes from the front of a buffer, failing when fewer
remain (bincode2 read primitive). -/
def takeN (n : Nat) (b : List Nat) : Option (List Nat × List Nat) :=
  if n ≤ b.length then some (b.take n, b.drop n) else none

/-- Big-endian value of a byte list. -/
def beVal (bs : List Nat) : Nat :=
  bs.foldl (fun a x => a * 256 + x) 0

/-- Read a big-endian `u32` (bincode2 configured with `.big_endian()` and
fixed-size integers, as in `decode_hdr` in src/wsjtx.rs). -/
def readU32 (b : List Nat) : Option (Nat × List Nat) :=
  (takeN 4 b).map fun p => (beVal p.1, p.2)

/-- Read a big-endian `u64`. -/
def readU64 (b : List Nat) : Option (Nat × List Nat) :=
  (takeN 8 b).map fun p => (beVal p.1, p.2)

/-- Read a single byte (`u8`). -/
def readU8 (b : List Nat) : Option (Nat × List Nat) :=
  match b with
  | [] => none
  | x :: r => some (x, r)

/-- Read a big-endian `i32`, two's complement. -/
def readI32 (b : List Nat) : Option (ℤ × List Nat) :=
  (takeN 4 b).map fun p =>
    (if beVal p.1 < 2147483648 then (beVal p.1 : ℤ) else (beVal p.1 : ℤ) - 4294967296, p.2)

/-- Read the 8 raw bytes of an `f64`; the numeric value is never inspected
by the code under verification, so the bit pattern is kept as a `Nat`. -/
def readF64bits (b : List Nat) : Option (Nat × List Nat) :=
  (takeN 8 b).map fun p => (beVal p.1, p.2)

/-- True when a continuation byte of a UTF-8 sequence is well formed. -/
def utf8Cont (b : Nat) : Bool :=
  decide (128 ≤ b) && decide (b ≤ 191)

/-- UTF-8 validity of a byte list, as enforced by Rust's `String::from_utf8`
when bincode2 deserializes a `String` field. -/
def utf8Valid : List Nat → Bool
  | [] => true
  | b :: rest =>
    if b ≤ 127 then utf8Valid rest
    else if 194 ≤ b ∧ b ≤ 223 then
      match rest with
      | c1 :: r => utf8Cont c1 && utf8Valid r
      | [] => false
    else if b = 224 then
      match rest with
      | c1 :: c2 :: r => (decide (160 ≤ c1) && decide (c1 ≤ 191)) && utf8Cont c2 && utf8Valid r
      | _ => false
    else if b = 237 then
      match rest with
      | c1 :: c2 :: r => (decide (128 ≤ c1) && decide (c1 ≤ 159)) && utf8Cont c2 && utf8Valid r
      | _ => false
    else if (225 ≤ b ∧ b ≤ 236) ∨ (238 ≤ b ∧ b ≤ 239) then
      match rest with
      | c1 :: c2 :: r => utf8Cont c1 && utf8Cont c2 && utf8Valid r
      | _ => false
    else if b = 240 then
      match rest with
      | c1 :: c2 :: c3 :: r =>
        (decide (144 ≤ c1) && decide (c1 ≤ 191)) && utf8Cont c2 && utf8Cont c3 && utf8Valid r
      | _ => false
    else if 241 ≤ b ∧ b ≤ 243 then
      match rest with
      | c1 :: c2 :: c3 :: r => utf8Cont c1 && utf8Cont c2 && utf8Cont c3 && utf8Valid r
      | _ => false
    else if b = 244 then
      match rest with
      | c1 :: c2 :: c3 :: r =>
        (decide (128 ≤ c1) && decide (c1 ≤ 143)) && utf8Cont c2 && utf8Cont c3 && utf8Valid r
      | _ => false
    else false

/-- Read a `String` field: a big-endian `u32` length prefix (bincode2's
`.string_length(U32)` option), then that many bytes, which must form valid
UTF-8.  The decoded text is kept as its byte list. -/
def readString (b : List Nat) : Option (List Nat × List Nat) :=
  match readU32 b with
  | none => none
  | some (len, b) =>
    match takeN len b with
    | none => none
    | some (s, b) => if utf8Valid s then some (s, b) else none

/-- Payload of the Heartbeat variant, from `struct WSJTX_Heartbeat` in
src/wsjtx.rs (string fields kept as byte lists). -/
structure WHeartbeat where
  id : List Nat
  max_schema_num : Nat
  version : List Nat
  revision : Nat
deriving DecidableEq, Repr

/-- Payload of the Status variant, from `struct WSJTX_Status` in src/wsjtx.rs. -/
structure WStatus where
  id : List Nat
  dial_frequency_hz : Nat
  mode : List Nat
  dx_call : List Nat
  report : List Nat
  tx_mode : List Nat
  tx_enabled : Nat
  transmitting : Nat
  decoding : Nat
  pad : Nat
  rx_df : Nat
  tx_df : Nat
deriving DecidableEq, Repr

/-- Payload of the Decode variant, from `struct WSJTX_Decode` in src/wsjtx.rs
(`delta_t : f64` kept as its raw 8-byte bit pattern). -/
structure WDecode where
  id : List Nat
  new : Nat
  time : Nat
  snr : ℤ
  delta_t : Nat
  delta_f : Nat
  mode : List Nat
  message : List Nat
  low_confidence : Nat
  off_air : Nat
deriving DecidableEq, Repr

/-- Payload of the LoggedADIF variant, from `struct WSJTX_LoggedADIF` in
src/wsjtx.rs. -/
structure WLoggedADIF where
  id : List Nat
  adif_text : List Nat
deriving DecidableEq, Repr

/-- Tagged message union from `enum WSJTXMsg` in src/wsjtx.rs; the variant
order fixes the bincode variant indices 0 through 15. -/
inductive WSJTXMsg where
  | Heartbeat (h : WHeartbeat)
  | Status (s : WStatus)
  | Decode (d : WDecode)
  | Clear
  | Reply
  | QSOLogged
  | Close
  | Replay
  | HaltTx
  | FreeText
  | WSPRDecode
  | Location
  | LoggedADIF (m : WLoggedADIF)
  | HighlightCallsign
  | SwitchConfiguration
  | Configure
deriving DecidableEq, Repr

/-- Deserialize a `WSJTXMsg`: bincode2 reads the enum variant index as a
big-endian `u32`, then the fields of that variant in declaration order; an
out-of-range index is a deserialization error. -/
def readMsg (b : List Nat) : Option (WSJTXMsg × List Nat) := do
  let (tag, b) ← readU32 b
  match tag with
  | 0 => do
    let (id, b) ← readString b
    let (msn, b) ← readU32 b
    let (ver, b) ← readString b
    let (rev, b) ← readU32 b
    pure (.Heartbeat ⟨id, msn, ver, rev⟩, b)
  | 1 => do
    let (id, b) ← readString b
    let (dial, b) ← readU64 b
    let (md, b) ← readString b
    let (dx, b) ← readString b
    let (rep, b) ← readString b
    let (txm, b) ← readString b
    let (txe, b) ← readU8 b
    let (tx, b) ← readU8 b
    let (dec, b) ← readU8 b
    let (pad, b) ← readU8 b
    let (rxdf, b) ← readU32 b
    let (txdf, b) ← readU32 b
    pure (.Status ⟨id, dial, md, dx, rep, txm, txe, tx, dec, pad, rxdf, txdf⟩, b)
  | 2 => do
    let (id, b) ← readString b
    let (nw, b) ← readU8 b
    let (tm, b) ← readU32 b
    let (snr, b) ← readI32 b
    let (dt, b) ← readF64bits b
    let (df, b) ← readU32 b
    let (md, b) ← readString b
    let (msg, b) ← readString b
    let (lc, b) ← readU8 b
    let (oa, b) ← readU8 b
    pure (.Decode ⟨id, nw, tm, snr, dt, df, md, msg, lc, oa⟩, b)
  | 3 => pure (.Clear, b)
  | 4 => pure (.Reply, b)
  | 5 => pure (.QSOLogged, b)
  | 6 => pure (.Close, b)
  | 7 => pure (.Replay, b)
  | 8 => pure (.HaltTx, b)
  | 9 => pure (.FreeText, b)
  | 10 => pure (.WSPRDecode, b)
  | 11 => pure (.Location, b)
  | 12 => do
    let (id, b) ← readString b
    let (adif, b) ← readString b
    pure (.LoggedADIF ⟨id, adif⟩, b)
  | 13 => pure (.HighlightCallsign, b)
  | 14 => pure (.SwitchConfiguration, b)
  | 15 => pure (.Configure, b)
  | _ => none

/-- Wire datagram from `struct WSJTXData` in src/wsjtx.rs. -/
structure WSJTXData where
  magic : Nat
  schema : Nat
  msg : WSJTXMsg
deriving DecidableEq, Repr

/-- Full bincode2 deserialization of a `WSJTXData` from a byte buffer:
`magic`, `schema`, then the tagged message, in declaration order.  Trailing
bytes are ignored, as by bincode's slice-based `deserialize`. -/
def deserializeWSJTXData (b : List Nat) : Option (WSJTXData × List Nat) := do
  let (magic, b) ← readU32 b
  let (schema, b) ← readU32 b
  let (msg, b) ← readMsg b
  pure (⟨magic, schema, msg⟩, b)

/-- Error taxonomy from `enum WSJTXError` in src/wsjtx.rs.  The spec calls
the third condition BadMagic; the source names it `BadMajick`. -/
inductive WSJTXError where
  | DatagramTooShort (msg : String)
  | DeserializationFailure (msg : String)
  | BadMajick (msg : String)
  | UnsupportedSchema (msg : String)
  | QSOUploadFailed (msg : String)
deriving DecidableEq, Repr

/-- Wire decoder from `decode_hdr` in src/wsjtx.rs.  `uploadOk` stands for
the outcome of the abstracted `upload_wsjtx_qso_data` HTTP call made for the
LoggedADIF variant; every other accepted variant just succeeds.  Note the
control flow of the source: the 12-byte length guard runs first, then the
whole datagram is deserialized, and only then are magic and schema checked. -/
def decode_hdr (uploadOk : Bool) (buf : List Nat) : Except WSJTXError Unit :=
  if buf.length < 12 then
    .error (.DatagramTooShort "Datagram too short for WSJTX header")
  else
    match deserializeWSJTXData buf with
    | none => .error (.DeserializationFailure "Couldn't deserialize datagram into WSJTX header")
    | some (w, _) =>
      if w.magic ≠ 2914831322 then
        .error (.BadMajick ("Bad majick: " ++ toString w.magic))
      else if w.schema ≠ 2 then
        .error (.UnsupportedSchema ("Schema: " ++ toString w.schema ++ "; only schema 2 so far"))
      else
        match w.msg with
        | .LoggedADIF _ =>
          if uploadOk then .ok () else .error (.QSOUploadFailed "upload failure")
        | _ => .ok ()

/-- Rig state snapshot pushed to Wavelog, from `struct RadioData` in
src/wavelog.rs, restricted to the three fields the polling loop compares
and updates (`key` and `radio` are fixed at start-up and never compared). -/
structure RadioData where
  frequency : String
  mode : String
  power : String
deriving DecidableEq, Repr

/-- Change test from the polling loop in `wavelog_thread` in src/wavelog.rs:
any of frequency, mode or power differing from the stored snapshot. -/
def radioChanged (cur new : RadioData) : Bool :=
  cur.frequency ≠ new.frequency ∨ cur.mode ≠ new.mode ∨ cur.power ≠ new.power

/-- Observable actions of one tick of the polling loop in src/wavelog.rs:
overwriting the stored snapshot, and attempting the HTTP push of the new
values (whose success or failure the loop ignores). -/
inductive PollEvent where
  | snapshotUpdate (d : RadioData)
  | pushAttempt (d : RadioData)
deriving DecidableEq, Repr

/-- One tick of the polling loop in `wavelog_thread` in src/wavelog.rs.
`fetched` is the result of `get_radio_data` (`none` for the `Err` branch,
which only logs).  Returns the stored snapshot after the tick and the trace
of actions in program order: the source assigns the three snapshot fields
first and then awaits `upload_live_radio_data`, binding its result to
`_result`. -/
def wavelogTick (cur : RadioData) (fetched : Option RadioData) :
    RadioData × List PollEvent :=
  match fetched with
  | none => (cur, [])
  | some n =>
    if radioChanged cur n then
      (n, [.snapshotUpdate n, .pushAttempt n])
    else
      (cur, [])

/-- Success test for an `Except` result. -/
def exceptIsOk {ε α : Type} : Except ε α → Bool
  | .ok _ => true
  | .error _ => false

/-- Modelled from the spec's words for the QSY claim: trimming exactly one
leading slash from the path (the source instead trims every leading slash). -/
def trimOneSlash (cs : List Char) : List Char :=
  match cs with
  | '/' :: r => r
  | _ => cs

/-- Modelled from the spec's words: a plain decimal representation of a
non-negative integer, one or more digits, with no bound on its value. -/
def isDecimalNat (cs : List Char) : Bool :=
  decide (cs ≠ []) && cs.all Char.isDigit

/-- The six coarse-mode tokens accepted by the QSY parser. -/
def qsyTokens : List String :=
  ["cw", "phone", "lsb", "usb", "digi", "rtty"]

/-- Modelled from the spec's words for the QSY claim as stated: one leading
slash trimmed, exactly two segments, first a decimal integer of unbounded
value, second one of the six tokens. -/
def claimQsyShape (path : String) : Bool :=
  match splitSlash (trimOneSlash path.data) with
  | [a, b] => isDecimalNat a && decide (String.mk b ∈ qsyTokens)
  | _ => false

/-- The decimal grammar Rust's `u32` parser actually accepts: an optional
leading plus sign, then one or more ASCII digits, with value below `2^32`. -/
def rustU32Grammar (cs : List Char) : Bool :=
  let ds := match cs with
    | '+' :: rest => rest
    | _ => cs
  decide (ds ≠ []) && ds.all Char.isDigit && decide (digitsVal ds < 4294967296)

/-- C10: every canonical mode survives the Display / FromStr string
round-trip: parsing the display string of any `Mode` yields that same mode,
which is what makes the enum-identity comparison in the mode-write guard
faithful to the rig-reported mode string. -/
theorem mode_display_fromstr_roundtrip (m : Mode) :
    Mode.fromStr (Mode.toString m) = some m := by
  cases m <;> rfl

/-- C2: the band-plan classifier returns true exactly when the frequency
lies in one of the ten half-open windows `[C - 2000, C + 3000)`, and at
every centre the lower boundary `C - 2000` is classified true while the
upper boundary `C + 3000` is classified false. -/
theorem is_ft8_windows :
    (∀ f : ℚ, is_ft8 f = true ↔ ∃ c ∈ ft8Centers, c - 2000 ≤ f ∧ f < c + 3000) ∧
    (∀ c ∈ ft8Centers, is_ft8 (c - 2000) = true ∧ is_ft8 (c + 3000) = false) := by
  constructor
  · intro f
    simp [is_ft8, List.any_eq_true]
  · intro c hc
    fin_cases hc <;> constructor <;> norm_num [is_ft8, ft8Centers]

/-- Witness for C2 at the 40 m centre. -/
theorem is_ft8_windows_witness :
    is_ft8 (7074000 - 2000) = true ∧ is_ft8 (7074000 + 3000) = false :=
  is_ft8_windows.2 7074000 (by norm_num [ft8Centers])

/-- C3: inside any activity window both translators ignore the coarse mode
entirely: the generic table returns `D_USB` and the vendor-qualified table
returns `DATA_U`, for all six coarse modes. -/
theorem translate_in_window (f : ℚ) (m : WavelogMode) (h : is_ft8 f = true) :
    wavelog_to_flrig_mode f m = Mode.D_USB ∧
    wavelog_to_yaesu_flrig_mode f m = Mode.DATA_U := by
  simp [wavelog_to_flrig_mode, wavelog_to_yaesu_flrig_mode, h]

/-- Witness for C3 at the 40 m FT8 centre with coarse mode CW. -/
theorem translate_in_window_witness :
    wavelog_to_flrig_mode 7074000 WavelogMode.Cw = Mode.D_USB ∧
    wavelog_to_yaesu_flrig_mode 7074000 WavelogMode.Cw = Mode.DATA_U :=
  translate_in_window 7074000 WavelogMode.Cw (by norm_num [is_ft8, ft8Centers])

/-- C4: outside every activity window, Phone translates to LSB below 10 MHz
and to USB at or above 10 MHz in both naming tables, while the explicit
coarse modes LSB and USB always translate to themselves in both tables at
any such frequency, regardless of the below-10 MHz convention. -/
theorem translate_outside_window (f : ℚ) (h : is_ft8 f = false) :
    (f < 10000000 →
      wavelog_to_flrig_mode f WavelogMode.Phone = Mode.LSB ∧
      wavelog_to_yaesu_flrig_mode f WavelogMode.Phone = Mode.LSB) ∧
    (10000000 ≤ f →
      wavelog_to_flrig_mode f WavelogMode.Phone = Mode.USB ∧
      wavelog_to_yaesu_flrig_mode f WavelogMode.Phone = Mode.USB) ∧
    wavelog_to_flrig_mode f WavelogMode.LSB = Mode.LSB ∧
    wavelog_to_yaesu_flrig_mode f WavelogMode.LSB = Mode.LSB ∧
    wavelog_to_flrig_mode f WavelogMode.USB = Mode.USB ∧
    wavelog_to_yaesu_flrig_mode f WavelogMode.USB = Mode.USB := by
  refine ⟨fun hlt => ?_, fun hge => ?_, ?_, ?_, ?_, ?_⟩ <;>
    simp [wavelog_to_flrig_mode, wavelog_to_yaesu_flrig_mode, h, not_lt]
  · simp [hlt]
  · exact hge

/-- Witness for C4 at 7.1 MHz (inside the 40 m band, outside every window). -/
theorem translate_outside_window_witness :
    wavelog_to_flrig_mode 7100000 WavelogMode.Phone = Mode.LSB ∧
    wavelog_to_flrig_mode 7100000 WavelogMode.USB = Mode.USB :=
  ⟨((translate_outside_window 7100000 (by norm_num [is_ft8, ft8Centers])).1 (by norm_num)).1,
   (translate_outside_window 7100000 (by norm_num [is_ft8, ft8Centers])).2.2.2.2.1⟩

/-- True when the first list is an initial segment of the second. -/
def listStartsWith : List Char → List Char → Bool
  | [], _ => true
  | _ :: _, [] => false
  | p :: ps, c :: cs => p = c && listStartsWith ps cs

/-- True when the first list occurs contiguously anywhere in the second. -/
def listHasSub (pat : List Char) : List Char → Bool
  | [] => listStartsWith pat []
  | c :: rest => listStartsWith pat (c :: rest) || listHasSub pat rest

/-- C1: with the rig-reported mode string parsing to canonical mode `m`,
the mode-write guard issues no `rig.set_mode` command and succeeds when
`m` is exactly the requested target (enum identity), and otherwise issues
exactly one `rig.set_mode` command, carrying the target's display string. -/
theorem set_mode_suppression (cw : Option Nat) (existing : String) (target m : Mode)
    (hparse : Mode.fromStr existing = some m) :
    (m = target → set_mode cw existing target = .ok []) ∧
    (m ≠ target → ∃ cmds, set_mode cw existing target = .ok cmds ∧
      cmds.filter RigCmd.isSetMode = [RigCmd.setMode (Mode.toString target)]) := by
  constructor
  · intro he
    subst he
    simp [set_mode, hparse]
  · intro hne
    have hne' : ¬ target = m := fun hc => hne hc.symm
    cases cw with
    | none =>
      exact ⟨[RigCmd.setMode (Mode.toString target)], by simp [set_mode, hparse, hne'], rfl⟩
    | some bw =>
      by_cases hCW : target = Mode.CW
      · subst hCW
        exact ⟨[RigCmd.setMode (Mode.toString Mode.CW), RigCmd.setBw (i32ofU32 bw)],
               by simp [set_mode, hparse, hne'], rfl⟩
      · exact ⟨[RigCmd.setMode (Mode.toString target)],
               by simp [set_mode, hparse, hne', hCW], rfl⟩

/-- Witness for C1: a rig already in USB mode asked for USB gets no command. -/
theorem set_mode_suppression_witness :
    set_mode none "USB" Mode.USB = .ok [] :=
  (set_mode_suppression none "USB" Mode.USB Mode.USB rfl).1 rfl

/-- Counterexample for C8 as stated: with the configured bandwidth
`2147483648` (a legal `u32`) and a CW write actually issued, the
`rig.set_bw` command carries `-2147483648` — the `u32 as i32` cast in the
source reinterprets the configured value, so the command does not carry
the configured value itself. -/
theorem set_mode_cw_filter_counterexample :
    set_mode (some 2147483648) "USB" Mode.CW =
      .ok [RigCmd.setMode "CW", RigCmd.setBw (-2147483648)] ∧
    i32ofU32 2147483648 ≠ ((2147483648 : Nat) : ℤ) := by
  constructor
  · rfl
  · decide

/-- C8 as amended: when a write is issued (current parses to `m ≠ target`),
a configured bandwidth plus a CW target yields exactly the mode-set command
followed by one `rig.set_bw` carrying the configured value reinterpreted as
an `i32`; with no configured bandwidth, or a non-CW target, only the
mode-set command is issued; and the reinterpretation is the identity for
every configured value below `2^31`. -/
theorem set_mode_cw_filter (cw : Option Nat) (existing : String) (target m : Mode)
    (hparse : Mode.fromStr existing = some m) (hne : m ≠ target) :
    (∀ bw, cw = some bw → target = Mode.CW →
      set_mode cw existing target =
        .ok [RigCmd.setMode (Mode.toString target), RigCmd.setBw (i32ofU32 bw)]) ∧
    (cw = none →
      set_mode cw existing target = .ok [RigCmd.setMode (Mode.toString target)]) ∧
    (target ≠ Mode.CW →
      set_mode cw existing target = .ok [RigCmd.setMode (Mode.toString target)]) ∧
    (∀ bw, bw < 2147483648 → i32ofU32 bw = (bw : ℤ)) := by
  have hne' : ¬ target = m := fun hc => hne hc.symm
  refine ⟨?_, ?_, ?_, ?_⟩
  · intro bw hcw hCW
    subst hcw
    subst hCW
    simp [set_mode, hparse, hne']
  · intro hcw
    subst hcw
    simp [set_mode, hparse, hne']
  · intro hCW
    cases cw with
    | none => simp [set_mode, hparse, hne']
    | some bw => simp [set_mode, hparse, hne', hCW]
  · intro bw hbw
    simp [i32ofU32, hbw]

/-- Witness for C8 (amended) with a realistic 500 Hz CW bandwidth. -/
theorem set_mode_cw_filter_witness :
    set_mode (some 500) "USB" Mode.CW = .ok [RigCmd.setMode "CW", RigCmd.setBw 500] := by
  have h := (set_mode_cw_filter (some 500) "USB" Mode.CW Mode.USB rfl (by decide)).1 500 rfl rfl
  simpa [Mode.toString, i32ofU32] using h

/-- Evaluation for C6 at the failing input: a rig-reported mode string
"FOO" outside the canonical enumeration makes `set_mode` fail with
UnknownMode before issuing any command, but the error message is the
uninterpolated literal — it does not contain the raw string "FOO". -/
theorem set_mode_unknown_mode_eval :
    set_mode none "FOO" Mode.CW =
      .error (.unknownMode ⟨"mode \x7bexisting_mode_str\x7d is unknown"⟩) ∧
    listHasSub "FOO".data "mode \x7bexisting_mode_str\x7d is unknown".data = false :=
  ⟨rfl, rfl⟩

/-- Counterexample for C9 as stated: on an observed change, the very first
action of the tick is the snapshot update — it precedes the push attempt
rather than following it. -/
theorem poll_update_order_counterexample :
    wavelogTick (RadioData.mk "" "" "0") (some (RadioData.mk "7074000" "USB" "5")) =
      (RadioData.mk "7074000" "USB" "5",
       [PollEvent.snapshotUpdate (RadioData.mk "7074000" "USB" "5"),
        PollEvent.pushAttempt (RadioData.mk "7074000" "USB" "5")]) ∧
    (wavelogTick (RadioData.mk "" "" "0") (some (RadioData.mk "7074000" "USB" "5"))).2.head? =
      some (PollEvent.snapshotUpdate (RadioData.mk "7074000" "USB" "5")) :=
  ⟨rfl, rfl⟩

/-- C9 as amended: the snapshot update and the push attempt are coupled in
the same tick, the update immediately preceding the attempt and neither
conditioned on the push outcome (the loop discards it); a changed
observation produces exactly one push attempt, an unchanged one none, a
failed fetch none, and once a change has been handled, observing the same
values again produces no further events — so a failed push is not retried
until the next distinct change. -/
theorem poll_update_push_coupling (cur n : RadioData) :
    (radioChanged cur n = true →
      wavelogTick cur (some n) =
        (n, [PollEvent.snapshotUpdate n, PollEvent.pushAttempt n])) ∧
    (radioChanged cur n = false → wavelogTick cur (some n) = (cur, [])) ∧
    wavelogTick cur none = (cur, []) ∧
    (radioChanged cur n = true →
      wavelogTick (wavelogTick cur (some n)).1 (some n) = (n, [])) := by
  refine ⟨fun h => ?_, fun h => ?_, rfl, fun h => ?_⟩
  · simp [wavelogTick, h]
  · simp [wavelogTick, h]
  · have hself : radioChanged n n = false := by simp [radioChanged]
    simp [wavelogTick, h, hself]

/-- Witness for C9 (amended) at a concrete changed observation. -/
theorem poll_update_push_coupling_witness :
    wavelogTick (RadioData.mk "" "" "0") (some (RadioData.mk "14074000" "CW" "5")) =
      (RadioData.mk "14074000" "CW" "5",
       [PollEvent.snapshotUpdate (RadioData.mk "14074000" "CW" "5"),
        PollEvent.pushAttempt (RadioData.mk "14074000" "CW" "5")]) :=
  (poll_update_push_coupling (RadioData.mk "" "" "0") (RadioData.mk "14074000" "CW" "5")).1
    (by decide)

/-- The `u32` parse embedding succeeds exactly on Rust's `u32` decimal
grammar. -/
theorem parseU32_isSome (cs : List Char) : (parseU32 cs).isSome = rustU32Grammar cs := by
  have hds : ∀ ds : List Char,
      (if ds ≠ [] ∧ ds.all Char.isDigit then
        if digitsVal ds < 4294967296 then some (digitsVal ds) else none
       else none).isSome
      = (decide (ds ≠ []) && ds.all Char.isDigit && decide (digitsVal ds < 4294967296)) := by
    intro ds
    split_ifs with h1 h2 <;> simp_all
  simp only [parseU32, rustU32Grammar]
  exact hds _

/-- The coarse-mode parse embedding succeeds exactly on the six tokens. -/
theorem wavelogModeFromStr_token (s : String) :
    (WavelogMode.fromStr s).isSome = true ↔ s ∈ qsyTokens := by
  unfold WavelogMode.fromStr qsyTokens
  split_ifs <;> simp_all

/-- Counterexample for C7 as stated: the path `/4294967296/cw` satisfies
the claimed shape (one slash trimmed, two segments, an unbounded decimal
first segment, a valid token second segment), yet the parser rejects it —
the source parses the first segment as a `u32` and `4294967296 = 2^32`
overflows. -/
theorem parse_qsy_path_counterexample :
    claimQsyShape "/4294967296/cw" = true ∧
    parse_qsy_path "/4294967296/cw" = .error "Frequency must be a positive integer" :=
  ⟨rfl, rfl⟩

/-- C7 as amended: the parser succeeds exactly when trimming every leading
slash and splitting on `'/'` yields exactly two segments whose first
matches Rust's `u32` decimal grammar (optional leading plus, digits only,
value below `2^32`) and whose second is one of the six lowercase tokens;
and each failing condition yields its corresponding BadRequest body, in
the source's checking order. -/
theorem parse_qsy_path_spec (path : String) :
    (exceptIsOk (parse_qsy_path path) = true ↔
      ∃ a b, splitSlash (path.data.dropWhile fun c => c = '/') = [a, b] ∧
        rustU32Grammar a = true ∧ String.mk b ∈ qsyTokens) ∧
    ((∀ a b, splitSlash (path.data.dropWhile fun c => c = '/') ≠ [a, b]) →
      parse_qsy_path path = .error "Expected /<freq>/<mode>") ∧
    (∀ a b, splitSlash (path.data.dropWhile fun c => c = '/') = [a, b] →
      rustU32Grammar a = false →
      parse_qsy_path path = .error "Frequency must be a positive integer") ∧
    (∀ a b, splitSlash (path.data.dropWhile fun c => c = '/') = [a, b] →
      rustU32Grammar a = true → String.mk b ∉ qsyTokens →
      parse_qsy_path path = .error "Invalid mode") := by
  simp only [parse_qsy_path]
  generalize splitSlash (path.data.dropWhile fun c => c = '/') = l
  rcases l with _ | ⟨a, _ | ⟨b, _ | ⟨c, t⟩⟩⟩
  · refine ⟨by simp [exceptIsOk], fun _ => rfl, by simp, by simp⟩
  · refine ⟨by simp [exceptIsOk], fun _ => rfl, by simp, by simp⟩
  · rcases hU : parseU32 a with _ | v
    · have hg : rustU32Grammar a = false := by
        rw [← parseU32_isSome, hU]
        rfl
      refine ⟨?_, ?_, ?_, ?_⟩
      · simp [hU, exceptIsOk, hg]
      · intro hno
        exact absurd rfl (hno a b)
      · intro a' b' hab _
        obtain ⟨rfl, rfl⟩ : a' = a ∧ b' = b := by
          simpa using hab.symm
        simp [hU]
      · intro a' b' hab hg' _
        obtain ⟨rfl, rfl⟩ : a' = a ∧ b' = b := by
          simpa using hab.symm
        rw [hg] at hg'
        cases hg'
    · have hg : rustU32Grammar a = true := by
        rw [← parseU32_isSome, hU]
        rfl
      rcases hM : WavelogMode.fromStr (String.mk b) with _ | m
      · have htok : String.mk b ∉ qsyTokens := by
          rw [← wavelogModeFromStr_token, hM]
          simp
        refine ⟨?_, ?_, ?_, ?_⟩
        · simp only [hU, hM]
          constructor
          · intro hfalse
            cases hfalse
          · rintro ⟨a', b', hab, -, htok'⟩
            obtain ⟨rfl, rfl⟩ : a' = a ∧ b' = b := by
              simpa using hab.symm
            exact absurd htok' htok
        · intro hno
          exact absurd rfl (hno a b)
        · intro a' b' hab hg'
          obtain ⟨rfl, rfl⟩ : a' = a ∧ b' = b := by
            simpa using hab.symm
          rw [hg] at hg'
          cases hg'
        · intro a' b' hab _ _
          obtain ⟨rfl, rfl⟩ : a' = a ∧ b' = b := by
            simpa using hab.symm
          simp [hU, hM]
      · have htok : String.mk b ∈ qsyTokens := by
          rw [← wavelogModeFromStr_token, hM]
          rfl
        refine ⟨?_, ?_, ?_, ?_⟩
        · simp only [hU, hM]
          constructor
          · intro _
            exact ⟨a, b, rfl, hg, htok⟩
          · intro _
            rfl
        · intro hno
          exact absurd rfl (hno a b)
        · intro a' b' hab hg'
          obtain ⟨rfl, rfl⟩ : a' = a ∧ b' = b := by
            simpa using hab.symm
          rw [hg] at hg'
          cases hg'
        · intro a' b' hab _ htok'
          obtain ⟨rfl, rfl⟩ : a' = a ∧ b' = b := by
            simpa using hab.symm
          exact absurd htok htok'
  · refine ⟨by simp [exceptIsOk], fun _ => rfl, by simp, by simp⟩

/-- Witness for C7 (amended): the canonical example path parses. -/
theorem parse_qsy_path_spec_witness :
    exceptIsOk (parse_qsy_path "/14030000/cw") = true :=
  (parse_qsy_path_spec "/14030000/cw").1.mpr
    ⟨"14030000".data, "cw".data, by decide, by decide, by decide⟩

/-- Counterexample for C5 as stated: a 12-byte buffer whose magic field
(the first four bytes, big-endian) is 0, not 0xADBCCBDA, yet whose variant
tag 0 announces a Heartbeat with a missing payload.  The source
deserializes the whole datagram before looking at the magic field, so the
decoder reports DeserializationFailure, not BadMagic. -/
theorem decode_hdr_counterexample :
    ¬ ([0, 0, 0, 0, 0, 0, 0, 2, 0, 0, 0, 0] : List Nat).length < 12 ∧
    beVal (([0, 0, 0, 0, 0, 0, 0, 2, 0, 0, 0, 0] : List Nat).take 4) ≠ 2914831322 ∧
    decode_hdr true [0, 0, 0, 0, 0, 0, 0, 2, 0, 0, 0, 0] =
      .error (.DeserializationFailure "Couldn't deserialize datagram into WSJTX header") :=
  ⟨by decide, by decide, rfl⟩

/-- C5 as amended: a buffer shorter than 12 bytes fails with
DatagramTooShort; a long-enough buffer that does not deserialize as a
whole datagram fails with DeserializationFailure; magic and schema are
checked only on fully deserialized datagrams, in that order, yielding
BadMagic (source name `BadMajick`) for a wrong magic field and
UnsupportedSchema for a correct magic with schema not exactly 2 — each
failure naming its own condition. -/
theorem decode_hdr_spec (up : Bool) (buf : List Nat) :
    (buf.length < 12 →
      decode_hdr up buf = .error (.DatagramTooShort "Datagram too short for WSJTX header")) ∧
    (12 ≤ buf.length → deserializeWSJTXData buf = none →
      decode_hdr up buf =
        .error (.DeserializationFailure "Couldn't deserialize datagram into WSJTX header")) ∧
    (∀ w rest, 12 ≤ buf.length → deserializeWSJTXData buf = some (w, rest) →
      w.magic ≠ 2914831322 →
      decode_hdr up buf = .error (.BadMajick ("Bad majick: " ++ toString w.magic))) ∧
    (∀ w rest, 12 ≤ buf.length → deserializeWSJTXData buf = some (w, rest) →
      w.magic = 2914831322 → w.schema ≠ 2 →
      decode_hdr up buf =
        .error (.UnsupportedSchema ("Schema: " ++ toString w.schema ++ "; only schema 2 so far"))) := by
  refine ⟨fun h => ?_, fun h hd => ?_, fun w rest h hd hm => ?_, fun w rest h hd hm hs => ?_⟩
  · simp [decode_hdr, h]
  · simp [decode_hdr, Nat.not_lt.mpr h, hd]
  · simp [decode_hdr, Nat.not_lt.mpr h, hd, hm]
  · simp [decode_hdr, Nat.not_lt.mpr h, hd, hm, hs]

/-- Witness for C5 (amended): a fully well-formed Clear datagram with
magic 1 is rejected as BadMajick naming that magic. -/
theorem decode_hdr_spec_witness :
    decode_hdr true [0, 0, 0, 1, 0, 0, 0, 2, 0, 0, 0, 3] =
      .error (.BadMajick ("Bad majick: " ++ toString (1 : Nat))) :=
  (decode_hdr_spec true [0, 0, 0, 1, 0, 0, 0, 2, 0, 0, 0, 3]).2.2.1
    ⟨1, 2, WSJTXMsg.Clear⟩ [] (by decide) rfl (by decide)
